import Mathlib

set_option maxRecDepth 100000

/-!
Verification of the multi-agent orchestration module `src/ui/multi_agent.py`
(CloudLabsAI-Azure/Capstone-Project).

The Python module is shallowly embedded below.  Python strings become Lean
`String` (a wrapper around `List Char`); the Python string methods used by the
source (`strip`, `upper`, `startswith`, `find`, `rfind`, the `in` substring
test, slicing and `replace`) are given executable ASCII models; the two regex
patterns used for artifact extraction are modelled by direct backtracking
scanners whose behaviour was checked against CPython `re.findall` on the
delimiter variants the source must accept.  The LLM chat client is an oracle
`List ChatMsg -> String`; subprocess git commands are an environment of
`CmdResult`s, and the publish path returns its outcome together with the list
of side effects it performed, in order.
-/

/-- Whitespace as matched by the regex class `\s` and stripped by Python
`str.strip()` (ASCII range, which covers all strings the module handles). -/
def pyWsChar (c : Char) : Bool :=
  c == ' ' || c == '\t' || c == '\n' || c == '\r' || c == '\x0b' || c == '\x0c'

/-- Python `str.strip()`: drop whitespace from both ends. -/
def pyStrip (s : String) : String :=
  String.mk ((((s.toList).dropWhile pyWsChar).reverse.dropWhile pyWsChar).reverse)

/-- Python `str.upper()` (ASCII letters). -/
def pyUpper (s : String) : String :=
  String.mk (s.toList.map Char.toUpper)

/-- Python `str.startswith(pfx)`. -/
def strStartsWith (s pfx : String) : Bool :=
  pfx.toList.isPrefixOf s.toList

/-- Helper for Python `str.find`: first index `>= i` at which `needle` starts. -/
def findSubAux (needle : List Char) : List Char → Nat → Option Nat
  | [], i => if needle.isPrefixOf [] then some i else none
  | c :: cs, i =>
    if needle.isPrefixOf (c :: cs) then some i else findSubAux needle cs (i + 1)

/-- Helper for Python `str.rfind`: last index at which `needle` starts. -/
def rfindSubAux (needle : List Char) : List Char → Nat → Option Nat → Option Nat
  | [], i, acc => if needle.isPrefixOf [] then some i else acc
  | c :: cs, i, acc =>
    rfindSubAux needle cs (i + 1) (if needle.isPrefixOf (c :: cs) then some i else acc)

/-- Python `s.find(sub)` (with `none` for `-1`). -/
def pyFind (s sub : String) : Option Nat := findSubAux sub.toList s.toList 0

/-- Python `s.rfind(sub)` (with `none` for `-1`). -/
def pyRFind (s sub : String) : Option Nat := rfindSubAux sub.toList s.toList 0 none

/-- Python `sub in s` substring test. -/
def strContains (s sub : String) : Bool := (pyFind s sub).isSome

/-- Python slice `s[a:b]` (for nonnegative bounds, clamped like Python). -/
def strSlice (s : String) (a b : Nat) : String :=
  String.mk ((s.toList.take b).drop a)

/-- Helper for Python `str.replace(pat, "")`: remove every (non-overlapping,
leftmost-first) occurrence of `pat`; fuel bounds the scan. -/
def removeAllAux (pat : List Char) : List Char → Nat → List Char
  | cs, 0 => cs
  | [], _ => []
  | c :: cs, fuel + 1 =>
    if pat.isPrefixOf (c :: cs) then
      removeAllAux pat ((c :: cs).drop pat.length) fuel
    else
      c :: removeAllAux pat cs fuel

/-- Python `s.replace(pat, "")` for a non-empty `pat`. -/
def pyRemoveAll (s pat : String) : String :=
  String.mk (removeAllAux pat.toList s.toList s.toList.length)

/-- Python `s.rstrip("/")`: drop trailing slashes. -/
def pyRStripSlash (s : String) : String :=
  String.mk ((s.toList.reverse.dropWhile (fun c => c == '/')).reverse)

/-- Python truthiness of an optional string (`None` and `""` are falsy),
as used by `os.getenv` results in the source. -/
def pyTruthy : Option String → Bool
  | none => false
  | some s => !(s == "")

/-- The characters of the fence opener `\x60\x60\x60html` matched by both
extraction regexes. -/
def fenceTagChars : List Char := "```html".toList

/-- The characters of a fence delimiter (three backticks). -/
def ticksChars : List Char := "```".toList

/-- Lazy scan for the tail `\n\s*` followed by three backticks of the regex
pattern 1; returns the capture (the text before the matching tail) and the
remainder of the input after the closing fence.  The inner greedy `\s*` can
only stop at the end of the whitespace run because a backtick is not
whitespace. -/
def scanTailP1 : List Char → Option (List Char × List Char)
  | [] => none
  | c :: cs =>
    if c == '\n' && ticksChars.isPrefixOf (cs.dropWhile pyWsChar) then
      some ([], (cs.dropWhile pyWsChar).drop 3)
    else
      match scanTailP1 cs with
      | some (cap, rest) => some (c :: cap, rest)
      | none => none

/-- Descending list of the positions of a newline inside the whitespace run
that follows the fence opener: the candidates for the backtracking greedy
`\s*` before the mandatory `\n` of pattern 1, most-consuming first. -/
def nlPositionsDesc (w : List Char) : List Nat :=
  ((List.range w.length).filter (fun k => w.getD k ' ' == '\n')).reverse

/-- Try the newline candidates of pattern 1 in backtracking order. -/
def tryNlPositions (w rest : List Char) : List Nat → Option (List Char × List Char)
  | [] => none
  | k :: ks =>
    match scanTailP1 (w.drop (k + 1) ++ rest) with
    | some r => some r
    | none => tryNlPositions w rest ks

/-- One anchored match attempt of regex pattern 1,
`\x60\x60\x60html\s*\n([\s\S]*?)\n\s*\x60\x60\x60`, at the head of the input. -/
def matchP1 (cs : List Char) : Option (List Char × List Char) :=
  if fenceTagChars.isPrefixOf cs then
    tryNlPositions ((cs.drop 7).takeWhile pyWsChar) ((cs.drop 7).dropWhile pyWsChar)
      (nlPositionsDesc ((cs.drop 7).takeWhile pyWsChar))
  else none

/-- Lazy scan for the tail `\s*` followed by three backticks of regex
pattern 2: the first position from which skipping whitespace lands on a
closing fence. -/
def scanTailP2 : List Char → Option (List Char × List Char)
  | [] => none
  | c :: cs =>
    if ticksChars.isPrefixOf ((c :: cs).dropWhile pyWsChar) then
      some ([], ((c :: cs).dropWhile pyWsChar).drop 3)
    else
      match scanTailP2 cs with
      | some (cap, rest) => some (c :: cap, rest)
      | none => none

/-- One anchored match attempt of regex pattern 2,
`\x60\x60\x60html\s*([\s\S]*?)\s*\x60\x60\x60`, at the head of the input. -/
def matchP2 (cs : List Char) : Option (List Char × List Char) :=
  if fenceTagChars.isPrefixOf cs then
    scanTailP2 ((cs.drop 7).dropWhile pyWsChar)
  else none

/-- `re.findall` driver: scan left to right, collecting non-overlapping
matches; the fuel (initialised to the input length) bounds the scan, and
suffices because every step consumes at least one character. -/
def findallAux (matcher : List Char → Option (List Char × List Char)) :
    Nat → List Char → List (List Char)
  | 0, _ => []
  | _ + 1, [] => []
  | fuel + 1, c :: cs =>
    match matcher (c :: cs) with
    | some (cap, rest) => cap :: findallAux matcher fuel rest
    | none => findallAux matcher fuel cs

/-- `re.findall` of extraction pattern 1 (fenced block with newlines). -/
def findallP1 (cs : List Char) : List (List Char) := findallAux matchP1 cs.length cs

/-- `re.findall` of extraction pattern 2 (fenced block, whitespace-tolerant). -/
def findallP2 (cs : List Char) : List (List Char) := findallAux matchP2 cs.length cs

/-- The fence-based part of per-message extraction: pattern 1 first, then
pattern 2, taking the last match and stripping it, exactly as the source does
with `html_matches[-1].strip()`. -/
def fencedExtract (content : String) : Option String :=
  match (findallP1 content.toList).getLast? with
  | some cap => some (pyStrip (String.mk cap))
  | none =>
    match (findallP2 content.toList).getLast? with
    | some cap => some (pyStrip (String.mk cap))
    | none => none

/-- The body of the per-message extraction loop of `run_multi_agent`
(lines 386-413): fenced patterns first (`continue` on success), then the
bare-HTML rule, which requires a closing marker found by `rfind` and
otherwise leaves the accumulator `cur` (the running `html_content`)
unchanged. -/
def extractStep (cur : Option String) (content : String) : Option String :=
  match fencedExtract content with
  | some a => some a
  | none =>
    if strContains content "<!DOCTYPE html>" then
      match pyRFind content "</html>" with
      | some e =>
        some (pyStrip (strSlice content ((pyFind content "<!DOCTYPE html>").getD 0) (e + 7)))
      | none => cur
    else if strStartsWith (pyStrip content) "<html" then
      match pyRFind content "</html>" with
      | some e =>
        some (pyStrip (strSlice content ((pyFind content "<html").getD 0) (e + 7)))
      | none => cur
    else cur

/-- What a single message contributes to extraction, in isolation. -/
def msgExtract (content : String) : Option String := extractStep none content

/-- A chat-completion request message (`role`/`content` dict). -/
structure ChatMsg where
  role : String
  content : String
deriving DecidableEq

/-- A conversation entry of the orchestration result
(`role`/`agent`/`content` dict). -/
structure ResultMsg where
  role : String
  agent : String
  content : String
deriving DecidableEq

/-- Default `ResultMsg` used when indexing off the end of a transcript. -/
def mdefault : ResultMsg := ⟨"", "", ""⟩

/-- Extraction over a whole transcript: the loop
`for message in results: ...` folding `extractStep` from `html_content = None`. -/
def extractHtml (msgs : List ResultMsg) : Option String :=
  msgs.foldl (fun cur m => extractStep cur m.content) none

/-- Post-processing and truthiness test before the artifact file is written:
`if html_content:` then strip residual fence markers and surrounding
whitespace. -/
def savedHtml (msgs : List ResultMsg) : Option String :=
  match extractHtml msgs with
  | none => none
  | some h => if h == "" then none else
      some (pyStrip (pyRemoveAll (pyRemoveAll h "```html") "```"))

/-- Fixed system instructions of the BusinessAnalyst agent (verbatim from the
source, apostrophes escaped). -/
def baInstructions : String :=
  "\n            You are a Business Analyst which will take the requirements from the user (also known as a \x27customer\x27)" ++
  "\n            and create a project plan for creating the requested app. The Business Analyst understands the user" ++
  "\n            requirements and creates detailed documents with requirements and costing. The documents should be " ++
  "\n            usable by the SoftwareEngineer as a reference for implementing the required features, and by the " ++
  "\n            Product Owner for reference to determine if the application delivered by the Software Engineer meets" ++
  "\n            all of the user\x27s requirements.\n            "

/-- Fixed system instructions of the SoftwareEngineer agent. -/
def seInstructions : String :=
  "\n            You are a Software Engineer, and your goal is create a web app using HTML and JavaScript" ++
  "\n            by taking into consideration all the requirements given by the Business Analyst. The application should" ++
  "\n            implement all the requested features. Deliver the code to the Product Owner for review when completed." ++
  "\n            \n            IMPORTANT: Share ONLY the raw HTML code without any markdown formatting. " ++
  "\n            Start directly with <!DOCTYPE html> or <html> tag." ++
  "\n            Do NOT wrap it in ```html code blocks." ++
  "\n            \n            You can also ask questions of the BusinessAnalyst to clarify any requirements that are unclear.\n            "

/-- Fixed system instructions of the ProductOwner agent. -/
def poInstructions : String :=
  "\n            You are the Product Owner which will review the software engineer\x27s code to ensure all user " ++
  "\n            requirements are completed. You are the guardian of quality, ensuring the final product meets" ++
  "\n            all specifications. " ++
  "\n            \n            IMPORTANT: When the Software Engineer shares HTML code, verify it is complete and functional." ++
  "\n            The HTML should start with <!DOCTYPE html> or <html> tags." ++
  "\n            \n            Once all client requirements are completed and the code is properly formatted, reply with \x27READY FOR USER APPROVAL\x27." ++
  "\n            If there are missing features or issues, you will need to send a request back to the SoftwareEngineer " ++
  "\n            or BusinessAnalyst with details of the defect.\n            "

/-- The system message appended when the ProductOwner signals readiness
(orchestrate, lines 177-181). -/
def systemPromptMsg : ResultMsg :=
  ⟨"system", "system",
   "The Product Owner has indicated that the work is ready for your approval. Please respond with \x27APPROVED\x27 to push the code to GitHub or \x27NOT APPROVED\x27 to have the agents continue working on it."⟩

/-- The prompt given to the BusinessAnalyst: the raw user input on the first
iteration, afterwards a review request quoting only the content of the last
message of the running transcript (`results[-1]['content']`). -/
def baMessageFor (userInput : String) (iter : Nat) (results : List ResultMsg) : String :=
  if iter = 0 then userInput
  else "Review the current progress and continue: " ++ ((results.getLast?.map ResultMsg.content).getD "")

/-- The message list sent to the chat client for the BusinessAnalyst turn. -/
def baCall (userInput : String) (iter : Nat) (results : List ResultMsg) : List ChatMsg :=
  [⟨"system", baInstructions⟩, ⟨"user", baMessageFor userInput iter results⟩]

/-- The message list sent to the chat client for the SoftwareEngineer turn. -/
def seCall (baResponse : String) : List ChatMsg :=
  [⟨"system", seInstructions⟩,
   ⟨"user", "Based on the Business Analyst\x27s requirements, implement the solution: " ++ baResponse⟩]

/-- The message list sent to the chat client for the ProductOwner turn. -/
def poCall (seResponse : String) : List ChatMsg :=
  [⟨"system", poInstructions⟩,
   ⟨"user", "Review the Software Engineer\x27s implementation: " ++ seResponse⟩]

/-- BusinessAnalyst response of one round, for a given chat-client oracle. -/
def baResponseOf (complete : List ChatMsg → String) (userInput : String) (iter : Nat)
    (results : List ResultMsg) : String :=
  complete (baCall userInput iter results)

/-- SoftwareEngineer response of one round. -/
def seResponseOf (complete : List ChatMsg → String) (userInput : String) (iter : Nat)
    (results : List ResultMsg) : String :=
  complete (seCall (baResponseOf complete userInput iter results))

/-- ProductOwner response of one round. -/
def poResponseOf (complete : List ChatMsg → String) (userInput : String) (iter : Nat)
    (results : List ResultMsg) : String :=
  complete (poCall (seResponseOf complete userInput iter results))

/-- The three messages appended to the transcript by one round of
`orchestrate` (BusinessAnalyst, SoftwareEngineer, ProductOwner, in order). -/
def roundMsgs (complete : List ChatMsg → String) (userInput : String) (iter : Nat)
    (results : List ResultMsg) : List ResultMsg :=
  [⟨"assistant", "BusinessAnalyst", baResponseOf complete userInput iter results⟩,
   ⟨"assistant", "SoftwareEngineer", seResponseOf complete userInput iter results⟩,
   ⟨"assistant", "ProductOwner", poResponseOf complete userInput iter results⟩]

/-- The three chat-client calls made by one round of `orchestrate`. -/
def roundCalls (complete : List ChatMsg → String) (userInput : String) (iter : Nat)
    (results : List ResultMsg) : List (List ChatMsg) :=
  [baCall userInput iter results,
   seCall (baResponseOf complete userInput iter results),
   poCall (seResponseOf complete userInput iter results)]

/-- The `for iteration in range(max_iterations)` loop of
`MultiAgentOrchestrator.orchestrate`: each round queries the three agents in
order and appends their responses; if the ProductOwner response contains
"READY FOR USER APPROVAL" (case-insensitively, via `.upper()`), a system
message is appended and the loop breaks.  Returns the transcript together
with the list of chat-client calls made. -/
def orchLoop (complete : List ChatMsg → String) (userInput : String) :
    Nat → Nat → List ResultMsg → List (List ChatMsg) →
    List ResultMsg × List (List ChatMsg)
  | 0, _, results, calls => (results, calls)
  | n + 1, iter, results, calls =>
    if strContains (pyUpper (poResponseOf complete userInput iter results)) "READY FOR USER APPROVAL" then
      (results ++ roundMsgs complete userInput iter results ++ [systemPromptMsg],
       calls ++ roundCalls complete userInput iter results)
    else
      orchLoop complete userInput n (iter + 1)
        (results ++ roundMsgs complete userInput iter results)
        (calls ++ roundCalls complete userInput iter results)

/-- `MultiAgentOrchestrator.orchestrate(user_input, max_iterations)`: the
transcript starts with the user message and the loop runs for at most
`maxIterations` rounds. -/
def orchestrate (complete : List ChatMsg → String) (userInput : String)
    (maxIterations : Nat) : List ResultMsg × List (List ChatMsg) :=
  orchLoop complete userInput maxIterations 0 [⟨"user", "User", userInput⟩] []

/-- `orchestrate` as invoked by `run_multi_agent`, with the default
`max_iterations = 5`. -/
def orchestrateDefault (complete : List ChatMsg → String) (userInput : String) :
    List ResultMsg × List (List ChatMsg) :=
  orchestrate complete userInput 5

/-- A transcript message that is a ProductOwner turn containing the readiness
phrase (the condition checked at line 176 of the source). -/
def poReadyMsg (m : ResultMsg) : Bool :=
  m.agent == "ProductOwner" && strContains (pyUpper m.content) "READY FOR USER APPROVAL"

/-- Environment visible to `MultiAgentOrchestrator.initialize`: the four
Azure OpenAI configuration variables as returned by `os.getenv`. -/
structure AzureEnv where
  apiKey : Option String
  endpoint : Option String
  deploymentName : Option String
  apiVersion : Option String
deriving DecidableEq

/-- Configuration produced by a successful initialization. -/
structure AzureConfig where
  apiKey : String
  endpoint : String
  deploymentName : String
  apiVersion : String
deriving DecidableEq

/-- `MultiAgentOrchestrator.initialize` (lines 24-49): reads the four
environment variables, defaulting the API version to "2024-02-01"; raises
(`Except.error`) when any of key, endpoint or deployment name is missing or
empty (`if not all([...])`), and strips trailing slashes from the endpoint. -/
def initAgents (env : AzureEnv) : Except String AzureConfig :=
  let apiVersion := (env.apiVersion).getD "2024-02-01"
  if pyTruthy env.apiKey && pyTruthy env.endpoint && pyTruthy env.deploymentName then
    Except.ok ⟨(env.apiKey).getD "", pyRStripSlash ((env.endpoint).getD ""),
               (env.deploymentName).getD "", apiVersion⟩
  else
    Except.error "Missing required Azure OpenAI environment variables"

/-- Result of one subprocess git invocation. -/
structure CmdResult where
  returncode : Int
  stdout : String
  stderr : String
deriving DecidableEq

/-- Environment of the `run_multi_agent` approval path: GitHub configuration
from `os.getenv`, existence of the locally persisted artifact file, and the
results the git subprocess calls would produce. -/
structure GitEnv where
  githubRepoUrl : Option String
  githubPat : Option String
  gitUserEmail : Option String
  githubUsername : Option String
  htmlExists : Bool
  cloneResult : CmdResult
  addResult : CmdResult
  commitResult : CmdResult
  pushMain : CmdResult
  pushMaster : CmdResult
deriving DecidableEq

/-- Side effects performed by the approval path, in program order.  The
locally persisted artifact file is only ever read (copied into the scratch
clone); no effect writes or deletes it. -/
inductive Effect where
  | mkTempDir
  | cloneRepo
  | copyHtmlToTemp
  | configEmail
  | configName
  | gitAdd
  | gitCommit
  | push (branch : String)
  | removeTempDir
deriving DecidableEq

/-- The publish outcomes, one per return site of the approval path. -/
inductive PublishOutcome where
  | noArtifact
  | notConfigured
  | cloneFailed (detail : String)
  | nothingToCommit
  | commitFailed (detail : String)
  | pushed
  | pushFailed (detail : String)
deriving DecidableEq

/-- Effects shared by every path that reaches the commit step: scratch
workspace, clone, artifact copy, optional commit identity, stage and commit. -/
def baseEffects (env : GitEnv) : List Effect :=
  [Effect.mkTempDir, Effect.cloneRepo, Effect.copyHtmlToTemp] ++
  (if pyTruthy env.gitUserEmail then [Effect.configEmail] else []) ++
  (if pyTruthy env.githubUsername then [Effect.configName] else []) ++
  [Effect.gitAdd, Effect.gitCommit]

/-- The `input.strip().upper() == "APPROVED"` branch of `run_multi_agent`
(lines 202-357): artifact existence check, configuration check, clone,
commit (with the "nothing to commit" distinction), push to `main` and - only
when the failed push mentions "main" in its stderr - a single retry against
`master`.  The `finally` block removes the scratch directory on every path
that created it. -/
def approvedFlow (env : GitEnv) : PublishOutcome × List Effect :=
  if env.htmlExists = false then (PublishOutcome.noArtifact, [])
  else if pyTruthy env.githubRepoUrl = false then (PublishOutcome.notConfigured, [])
  else if env.cloneResult.returncode ≠ 0 then
    (PublishOutcome.cloneFailed
      (if env.cloneResult.stderr == "" then "Unknown error" else pyStrip env.cloneResult.stderr),
     [Effect.mkTempDir, Effect.cloneRepo, Effect.removeTempDir])
  else if env.commitResult.returncode ≠ 0 then
    if strContains env.commitResult.stdout "nothing to commit"
        || strContains env.commitResult.stderr "nothing to commit" then
      (PublishOutcome.nothingToCommit, baseEffects env ++ [Effect.removeTempDir])
    else
      (PublishOutcome.commitFailed env.commitResult.stderr, baseEffects env ++ [Effect.removeTempDir])
  else if env.pushMain.returncode ≠ 0 ∧ strContains env.pushMain.stderr "main" = true then
    if env.pushMaster.returncode = 0 then
      (PublishOutcome.pushed, baseEffects env ++ [Effect.push "main", Effect.push "master", Effect.removeTempDir])
    else
      (PublishOutcome.pushFailed env.pushMaster.stderr,
       baseEffects env ++ [Effect.push "main", Effect.push "master", Effect.removeTempDir])
  else if env.pushMain.returncode = 0 then
    (PublishOutcome.pushed, baseEffects env ++ [Effect.push "main", Effect.removeTempDir])
  else
    (PublishOutcome.pushFailed env.pushMain.stderr,
     baseEffects env ++ [Effect.push "main", Effect.removeTempDir])

/-- The branches pushed to, in order, by a list of effects. -/
def pushBranches (effs : List Effect) : List String :=
  effs.filterMap (fun e => match e with | Effect.push b => some b | _ => none)

/-- Result of one `run_multi_agent` request: a publish attempt, the rejection
acknowledgement, or a fresh orchestration run (with the artifact the run
persists, if any). -/
inductive RunResult where
  | publishRun (outcome : PublishOutcome) (effects : List Effect)
  | rejectAck
  | orchestrationRun (results : List ResultMsg) (saved : Option String)

/-- Whether a run result entered the publish path. -/
def RunResult.isPublish : RunResult → Bool
  | RunResult.publishRun _ _ => true
  | _ => false

/-- `run_multi_agent(input)` (lines 194-435): dispatch on the stripped,
upper-cased input - exact equality with "APPROVED" enters the approval gate,
exact equality with "NOT APPROVED" returns the acknowledgement, anything
else starts a fresh orchestration run (whose transcript is then scanned for
an artifact, persisted when non-empty). -/
def runMultiAgent (genv : GitEnv) (complete : List ChatMsg → String) (input : String) :
    RunResult :=
  if pyUpper (pyStrip input) = "APPROVED" then
    RunResult.publishRun (approvedFlow genv).1 (approvedFlow genv).2
  else if pyUpper (pyStrip input) = "NOT APPROVED" then
    RunResult.rejectAck
  else
    RunResult.orchestrationRun (orchestrateDefault complete input).1
      (savedHtml (orchestrateDefault complete input).1)

/-- A chat-client oracle that always answers "ok" (never signals readiness). -/
def exComplete : List ChatMsg → String := fun _ => "ok"

/-- A chat-client oracle that answers "READY FOR USER APPROVAL" exactly when
queried with the ProductOwner instructions, and "ok" otherwise. -/
def completeRouter : List ChatMsg → String := fun msgs =>
  if (msgs.getD 0 ⟨"", ""⟩).content = poInstructions then "READY FOR USER APPROVAL" else "ok"

/-- An implementer message carrying a first fenced artifact. -/
def mEngOne : ResultMsg := ⟨"assistant", "SoftwareEngineer", "```html\n<p>one</p>\n```"⟩

/-- An implementer message carrying a second fenced artifact. -/
def mEngTwo : ResultMsg := ⟨"assistant", "SoftwareEngineer", "```html\n<p>two</p>\n```"⟩

/-- A reviewer message with no extractable artifact. -/
def mPlain : ResultMsg := ⟨"assistant", "ProductOwner", "looks good"⟩

/-- A message that starts an HTML document but never closes it. -/
def mDocNoClose : ResultMsg := ⟨"assistant", "SoftwareEngineer", "<!DOCTYPE html><body>unfinished"⟩

/-- A message containing both a fenced artifact and bare HTML markers. -/
def cBoth : String :=
  "Intro\n```html\n<p>A</p>\n```\n<!DOCTYPE html><html><body>B</body></html>"

/-- A successful git command result. -/
def zeroCmd : CmdResult := ⟨0, "", ""⟩

/-- Publish environment with an artifact but no configured repository URL. -/
def genvNoRepo : GitEnv := ⟨none, none, none, none, true, zeroCmd, zeroCmd, zeroCmd, zeroCmd, zeroCmd⟩

/-- Publish environment whose push to main fails without mentioning "main". -/
def genvPushDenied : GitEnv :=
  ⟨some "https://example.com/r.git", none, none, none, true,
   zeroCmd, zeroCmd, zeroCmd, ⟨1, "", "permission denied"⟩, zeroCmd⟩

/-- Publish environment whose push to main fails because the branch is
missing (stderr mentions "main"). -/
def genvPushMainMissing : GitEnv :=
  ⟨some "https://example.com/r.git", none, none, none, true,
   zeroCmd, zeroCmd, zeroCmd, ⟨1, "", "error: src refspec main does not match any"⟩, zeroCmd⟩

/-- Whether an initialization result is a success. -/
def isOkB : Except String AzureConfig → Bool
  | Except.ok _ => true
  | Except.error _ => false

/-!
Validation of the regex embedding: the expected values below are the outputs
of CPython `re.findall` with the source patterns on the same inputs.
-/

example : (findallP1 "```html\n<html><body>Hi</body></html>\n```".toList).map String.mk = ["<html><body>Hi</body></html>"] := by decide
example : (findallP1 "```html<html><body>Hi</body></html>```".toList) = [] := by decide
example : (findallP2 "```html<html><body>Hi</body></html>```".toList).map String.mk = ["<html><body>Hi</body></html>"] := by decide
example : (findallP1 "```html\n \n```x".toList).map String.mk = [" "] := by decide
example : (findallP2 "```html\n \n```x".toList).map String.mk = [""] := by decide
example : (findallP1 "```html <p>x</p> ```".toList) = [] := by decide
example : (findallP2 "```html <p>x</p> ```".toList).map String.mk = ["<p>x</p>"] := by decide
example : (findallP1 "```html\na\nb\n``` mid ```html\nc\n```".toList).map String.mk = ["a\nb", "c"] := by decide
example : (findallP2 "```htmlabc ```".toList).map String.mk = ["abc"] := by decide
example : (findallP1 "```html\n\n\nx\n\n```".toList).map String.mk = ["x"] := by decide
example : msgExtract "looks good" = none := by decide
example : msgExtract "Intro <!DOCTYPE html><html><body>B</body></html> outro" = some "<!DOCTYPE html><html><body>B</body></html>" := by decide
example : savedHtml [mEngOne] = some "<p>one</p>" := by decide

lemma extractHtml_append (pre : List ResultMsg) (m : ResultMsg) :
    extractHtml (pre ++ [m]) = extractStep (extractHtml pre) m.content := by
  simp [extractHtml, List.foldl_append]

lemma extractStep_eq (cur : Option String) (c : String) :
    extractStep cur c = match msgExtract c with | some a => some a | none => cur := by
  unfold msgExtract extractStep
  cases hf : fencedExtract c
  · by_cases hd : strContains c "<!DOCTYPE html>" = true
    · cases hr : pyRFind c "</html>" <;> simp [hf, hd, hr]
    · by_cases hs : strStartsWith (pyStrip c) "<html" = true
      · cases hr : pyRFind c "</html>" <;> simp [hf, hd, hs, hr]
      · simp [hf, hd, hs]
  · simp [hf]

lemma findallAux_nil (matcher : List Char → Option (List Char × List Char))
    (hm : ∀ ds, fenceTagChars.isPrefixOf ds = false → matcher ds = none) :
    ∀ (fuel : Nat) (cs : List Char) (i : Nat),
      findSubAux fenceTagChars cs i = none → findallAux matcher fuel cs = [] := by
  intro fuel
  induction fuel with
  | zero => intro cs i _; rfl
  | succ f ih =>
    intro cs i h
    cases cs with
    | nil => rfl
    | cons c cs' =>
      unfold findSubAux at h
      by_cases hp : fenceTagChars.isPrefixOf (c :: cs') = true
      · rw [if_pos hp] at h; exact absurd h (by simp)
      · rw [if_neg hp] at h
        have hpf : fenceTagChars.isPrefixOf (c :: cs') = false := by
          revert hp; cases fenceTagChars.isPrefixOf (c :: cs') <;> simp
        have hmm : matcher (c :: cs') = none := hm _ hpf
        unfold findallAux
        rw [hmm]
        exact ih cs' (i + 1) h

lemma fenced_none_of_no_tag (c : String) (h : strContains c "```html" = false) :
    fencedExtract c = none := by
  have hfind : findSubAux fenceTagChars c.toList 0 = none := by
    cases hf : pyFind c "```html" with
    | none => exact hf
    | some v => rw [strContains, hf] at h; simp at h
  have h1 : findallP1 c.toList = [] :=
    findallAux_nil matchP1 (fun ds hds => by unfold matchP1; rw [if_neg (by simp [hds])])
      c.toList.length c.toList 0 hfind
  have h2 : findallP2 c.toList = [] :=
    findallAux_nil matchP2 (fun ds hds => by unfold matchP2; rw [if_neg (by simp [hds])])
      c.toList.length c.toList 0 hfind
  unfold fencedExtract
  rw [h1, h2]
  rfl

lemma rfind_none_of_find_none (needle : List Char) :
    ∀ (cs : List Char) (i : Nat),
      findSubAux needle cs i = none → rfindSubAux needle cs i none = none := by
  intro cs
  induction cs with
  | nil =>
    intro i h
    unfold findSubAux at h
    unfold rfindSubAux
    by_cases hp : needle.isPrefixOf [] = true
    · rw [if_pos hp] at h; exact absurd h (by simp)
    · rw [if_neg hp]
  | cons c cs' ih =>
    intro i h
    unfold findSubAux at h
    by_cases hp : needle.isPrefixOf (c :: cs') = true
    · rw [if_pos hp] at h; exact absurd h (by simp)
    · rw [if_neg hp] at h
      unfold rfindSubAux
      rw [if_neg hp]
      exact ih (i + 1) h

lemma pyRFind_none_of_not_contains (s sub : String) (h : strContains s sub = false) :
    pyRFind s sub = none := by
  have hfind : findSubAux sub.toList s.toList 0 = none := by
    cases hf : pyFind s sub with
    | none => exact hf
    | some v => rw [strContains, hf] at h; simp at h
  exact rfind_none_of_find_none sub.toList s.toList 0 hfind

/-- C5: extraction over a transcript is last-match-wins: appending a message
that yields an artifact makes that artifact the extraction result, and
appending a message that yields none leaves the result of the preceding
transcript unchanged, so the last matching message supplies the final
artifact and a later non-matching message never displaces an earlier one. -/
theorem C5_last_artifact (pre : List ResultMsg) (m : ResultMsg) :
    (∀ a : String, msgExtract m.content = some a → extractHtml (pre ++ [m]) = some a) ∧
    (msgExtract m.content = none → extractHtml (pre ++ [m]) = extractHtml pre) := by
  constructor
  · intro a h
    rw [extractHtml_append, extractStep_eq, h]
  · intro h
    rw [extractHtml_append, extractStep_eq, h]

/-- Witness for C5 at concrete inputs: two implementer messages each carry a
fenced artifact and a later reviewer message carries none; extraction
returns the artifact of the second implementer message. -/
theorem C5_last_artifact_witness :
    extractHtml [mEngOne, mEngTwo, mPlain] = some "<p>two</p>" := by
  have h1 : extractHtml ([mEngOne, mEngTwo] ++ [mPlain]) = extractHtml [mEngOne, mEngTwo] :=
    (C5_last_artifact [mEngOne, mEngTwo] mPlain).2 (by decide)
  have h2 : extractHtml ([mEngOne] ++ [mEngTwo]) = some "<p>two</p>" :=
    (C5_last_artifact [mEngOne] mEngTwo).1 "<p>two</p>" (by decide)
  exact h1.trans h2

/-- C6: when a message contains bare HTML markers, a successful fenced
extraction still decides that message's contribution (the fenced rules run
first and their result is returned unconditionally), and both fence
delimiter variants - with and without surrounding newlines - are accepted. -/
theorem C6_fence_precedence :
    (∀ (content a : String) (cur : Option String),
        (strContains content "<!DOCTYPE html>" = true ∨
         strStartsWith (pyStrip content) "<html" = true) →
        fencedExtract content = some a →
        extractStep cur content = some a) ∧
    msgExtract "```html\n<html><body>Hi</body></html>\n```" = some "<html><body>Hi</body></html>" ∧
    msgExtract "```html<html><body>Hi</body></html>```" = some "<html><body>Hi</body></html>" := by
  refine ⟨?_, by decide, by decide⟩
  intro content a cur _ hf
  unfold extractStep
  rw [hf]

/-- Witness for C6 at a concrete input holding both a fenced block and a
bare `<!DOCTYPE html>` document: the fenced block wins even when an earlier
artifact is in the accumulator. -/
theorem C6_fence_precedence_witness :
    extractStep (some "old") cBoth = some "<p>A</p>" :=
  C6_fence_precedence.1 cBoth "<p>A</p>" (some "old") (Or.inl (by decide)) (by decide)

/-- C10: a message that triggers the bare-HTML rule (contains
`<!DOCTYPE html>` or starts with `<html` after stripping) but has no fence
and no closing `</html>` contributes nothing: extraction over the extended
transcript equals extraction over the preceding transcript, so an earlier
artifact is retained unchanged. -/
theorem C10_bare_requires_close (pre : List ResultMsg) (m : ResultMsg)
    (hfence : strContains m.content "```html" = false)
    (_hmark : strContains m.content "<!DOCTYPE html>" = true ∨
             strStartsWith (pyStrip m.content) "<html" = true)
    (hclose : strContains m.content "</html>" = false) :
    extractHtml (pre ++ [m]) = extractHtml pre := by
  rw [extractHtml_append]
  unfold extractStep
  rw [fenced_none_of_no_tag m.content hfence,
      pyRFind_none_of_not_contains m.content "</html>" hclose]
  by_cases hd : strContains m.content "<!DOCTYPE html>" = true <;>
    by_cases hs : strStartsWith (pyStrip m.content) "<html" = true <;>
    simp [hd, hs]

/-- Witness for C10 at concrete inputs: an unterminated bare HTML document
appended after an implementer message leaves the extraction result of the
earlier transcript unchanged. -/
theorem C10_bare_requires_close_witness :
    extractHtml ([mEngOne] ++ [mDocNoClose]) = extractHtml [mEngOne] :=
  C10_bare_requires_close [mEngOne] mDocNoClose (by decide) (Or.inl (by decide)) (by decide)

lemma poReady_ba (c : String) : poReadyMsg ⟨"assistant", "BusinessAnalyst", c⟩ = false := rfl

lemma poReady_se (c : String) : poReadyMsg ⟨"assistant", "SoftwareEngineer", c⟩ = false := rfl

lemma poReady_sys : poReadyMsg systemPromptMsg = false := rfl

lemma poReady_user (c : String) : poReadyMsg ⟨"user", "User", c⟩ = false := rfl

lemma poReady_mdefault : poReadyMsg mdefault = false := rfl

lemma poReady_po (c : String) :
    poReadyMsg ⟨"assistant", "ProductOwner", c⟩ = strContains (pyUpper c) "READY FOR USER APPROVAL" := rfl

lemma noReady_getD (l : List ResultMsg) (hl : ∀ m ∈ l, poReadyMsg m = false) :
    ∀ i, poReadyMsg (l.getD i mdefault) = false := by
  induction l with
  | nil => intro i; simp [List.getD]; exact poReady_mdefault
  | cons x l ih =>
    intro i
    cases i with
    | zero => simpa using hl x (by simp)
    | succ j =>
      rw [List.getD_cons_succ]
      exact ih (fun m hm => hl m (by simp [hm])) j

lemma okTail (l : List ResultMsg) (hl : ∀ m ∈ l, poReadyMsg m = false)
    (b s p : ResultMsg) (hb : poReadyMsg b = false) (hs : poReadyMsg s = false) :
    ∀ i, poReadyMsg ((l ++ [b, s, p, systemPromptMsg]).getD i mdefault) = true →
      (l ++ [b, s, p, systemPromptMsg]).drop (i + 1) = [systemPromptMsg] := by
  induction l with
  | nil =>
    intro i h
    rcases i with _ | _ | _ | _ | j
    · rw [List.nil_append, List.getD_cons_zero] at h
      exact absurd h (by simp [hb])
    · rw [List.nil_append, List.getD_cons_succ, List.getD_cons_zero] at h
      exact absurd h (by simp [hs])
    · rfl
    · rw [List.nil_append] at h
      simp only [List.getD_cons_succ, List.getD_cons_zero] at h
      exact absurd h (by simp [poReady_sys])
    · rw [List.nil_append] at h
      simp only [List.getD_cons_succ] at h
      simp [List.getD] at h
      exact absurd h (by simp [poReady_mdefault])
  | cons x l ih =>
    intro i h
    cases i with
    | zero =>
      rw [List.cons_append, List.getD_cons_zero] at h
      exact absurd h (by simp [hl x (by simp)])
    | succ j =>
      rw [List.cons_append, List.getD_cons_succ] at h
      rw [List.cons_append, List.drop_succ_cons]
      exact ih (fun m hm => hl m (by simp [hm])) j h

lemma orchLoop_ok (complete : List ChatMsg → String) (u : String) :
    ∀ (n iter : Nat) (results : List ResultMsg) (calls : List (List ChatMsg)),
      (∀ m ∈ results, poReadyMsg m = false) →
      ∀ i, poReadyMsg ((orchLoop complete u n iter results calls).1.getD i mdefault) = true →
        (orchLoop complete u n iter results calls).1.drop (i + 1) = [systemPromptMsg] := by
  intro n
  induction n with
  | zero =>
    intro iter results calls hres i h
    unfold orchLoop at h ⊢
    have h2 : poReadyMsg (results.getD i mdefault) = true := h
    rw [noReady_getD results hres i] at h2
    exact Bool.noConfusion h2
  | succ k ih =>
    intro iter results calls hres i h
    unfold orchLoop at h ⊢
    by_cases hc : strContains (pyUpper (poResponseOf complete u iter results)) "READY FOR USER APPROVAL" = true
    · rw [if_pos hc] at h ⊢
      simp only [roundMsgs] at h ⊢
      rw [List.append_assoc] at h ⊢
      exact okTail results hres _ _ _ (poReady_ba _) (poReady_se _) i h
    · rw [if_neg hc] at h ⊢
      have hc' : strContains (pyUpper (poResponseOf complete u iter results)) "READY FOR USER APPROVAL" = false := by
        revert hc
        cases strContains (pyUpper (poResponseOf complete u iter results)) "READY FOR USER APPROVAL" <;> simp
      have hres' : ∀ m ∈ results ++ roundMsgs complete u iter results, poReadyMsg m = false := by
        intro m hm
        rcases List.mem_append.mp hm with h1 | h2
        · exact hres m h1
        · simp only [roundMsgs, List.mem_cons, List.mem_singleton] at h2
          rcases h2 with h2 | h2 | h2 | h2
          · rw [h2]; exact poReady_ba _
          · rw [h2]; exact poReady_se _
          · rw [h2, poReady_po]; exact hc'
          · cases h2
      exact ih (iter + 1) _ _ hres' i h

/-- C3: once a ProductOwner transcript entry contains the phrase
"READY FOR USER APPROVAL" (case-insensitively), everything after it in the
run's transcript is exactly the system message requesting the human
approve/reject decision: no further agent turn is appended in that run. -/
theorem C3_ready_stops (complete : List ChatMsg → String) (u : String) (n i : Nat)
    (h : poReadyMsg (((orchestrate complete u n).1).getD i mdefault) = true) :
    ((orchestrate complete u n).1).drop (i + 1) = [systemPromptMsg] := by
  unfold orchestrate at h ⊢
  refine orchLoop_ok complete u n 0 [⟨"user", "User", u⟩] [] ?_ i h
  intro m hm
  rw [List.mem_singleton] at hm
  rw [hm]
  exact poReady_user u

/-- Witness for C3 at a concrete run: an oracle whose ProductOwner turn
signals readiness in the first round produces the five-message transcript
[user, analyst, engineer, owner, system], and everything after the
readiness message (index 3) is the system approval prompt. -/
theorem C3_ready_stops_witness :
    ((orchestrate completeRouter "make an app" 1).1).drop 4 = [systemPromptMsg] :=
  C3_ready_stops completeRouter "make an app" 1 3 (by decide)

lemma orchLoop_len (complete : List ChatMsg → String) (u : String) :
    ∀ (n iter : Nat) (results : List ResultMsg) (calls : List (List ChatMsg)),
      ((orchLoop complete u n iter results calls).1).length ≤ results.length + 3 * n + 1 := by
  intro n
  induction n with
  | zero =>
    intro iter results calls
    unfold orchLoop
    show results.length ≤ results.length + 3 * 0 + 1
    omega
  | succ k ih =>
    intro iter results calls
    unfold orchLoop
    by_cases hc : strContains (pyUpper (poResponseOf complete u iter results)) "READY FOR USER APPROVAL" = true
    · rw [if_pos hc]
      simp only [roundMsgs, List.length_append, List.length_cons, List.length_nil]
      omega
    · rw [if_neg hc]
      have hb := ih (iter + 1) (results ++ roundMsgs complete u iter results)
        (calls ++ roundCalls complete u iter results)
      have hlen : (results ++ roundMsgs complete u iter results).length = results.length + 3 := by
        simp [roundMsgs]
      rw [hlen] at hb
      omega

/-- C2: for every chat-client oracle, user input and round ceiling, the
orchestration loop terminates with a transcript of at most `3 * n + 2`
messages (one user message, three agent messages per round, and at most one
final system message), so with the default ceiling of 5 rounds every run's
conversation length is bounded by the fixed constant 17 - even when no
readiness signal or approval token ever appears. -/
theorem C2_bounded_length :
    (∀ (complete : List ChatMsg → String) (u : String) (n : Nat),
        ((orchestrate complete u n).1).length ≤ 3 * n + 2) ∧
    (∀ (complete : List ChatMsg → String) (u : String),
        ((orchestrateDefault complete u).1).length ≤ 17) := by
  constructor
  · intro complete u n
    have hb := orchLoop_len complete u n 0 [⟨"user", "User", u⟩] []
    simp only [List.length_cons, List.length_nil] at hb
    unfold orchestrate
    omega
  · intro complete u
    have hb := orchLoop_len complete u 5 0 [⟨"user", "User", u⟩] []
    simp only [List.length_cons, List.length_nil] at hb
    unfold orchestrateDefault orchestrate
    omega

/-- C4: the context sent to the chat client is not the accumulated
transcript.  Evaluated at the oracle that always answers "ok" and the
request "build a todo app", the BusinessAnalyst call of the second round
(call index 3) consists of exactly two messages - the fixed instructions and
one user message quoting only the content of the immediately preceding
message - although the transcript already holds 4 messages at that point
(and grows to 16); the original user request is absent from that call. -/
theorem C4_last_message_only :
    (orchestrateDefault exComplete "build a todo app").2.getD 3 [] =
      [⟨"system", baInstructions⟩, ⟨"user", "Review the current progress and continue: ok"⟩] ∧
    ((orchestrateDefault exComplete "build a todo app").2.getD 3 []).length = 2 ∧
    ((orchestrateDefault exComplete "build a todo app").1).length = 16 := by
  refine ⟨by decide, by decide, by decide⟩

/-- C1 (amended): the approval gate is entered exactly when the stripped,
upper-cased human input equals "APPROVED" (exact match, not mere
containment); the rejection acknowledgement is returned exactly when it
equals "NOT APPROVED"; every other input starts a fresh orchestration run. -/
theorem C1_dispatch (genv : GitEnv) (complete : List ChatMsg → String) (input : String) :
    ((runMultiAgent genv complete input).isPublish = true ↔
      pyUpper (pyStrip input) = "APPROVED") ∧
    (runMultiAgent genv complete input = RunResult.rejectAck ↔
      pyUpper (pyStrip input) = "NOT APPROVED") ∧
    (pyUpper (pyStrip input) ≠ "APPROVED" → pyUpper (pyStrip input) ≠ "NOT APPROVED" →
      runMultiAgent genv complete input =
        RunResult.orchestrationRun (orchestrateDefault complete input).1
          (savedHtml (orchestrateDefault complete input).1)) := by
  unfold runMultiAgent
  by_cases h1 : pyUpper (pyStrip input) = "APPROVED"
  · rw [if_pos h1]
    refine ⟨by simp [RunResult.isPublish, h1], ?_, fun hA _ => absurd h1 hA⟩
    constructor
    · intro hx; exact absurd hx (by simp)
    · intro hx; rw [h1] at hx; exact absurd hx (by decide)
  · rw [if_neg h1]
    by_cases h2 : pyUpper (pyStrip input) = "NOT APPROVED"
    · rw [if_pos h2]
      refine ⟨?_, by simp [h2], fun _ hN => absurd h2 hN⟩
      constructor
      · intro hx; exact absurd hx (by simp [RunResult.isPublish])
      · intro hx; exact absurd hx h1
    · rw [if_neg h2]
      refine ⟨?_, ?_, fun _ _ => rfl⟩
      · constructor
        · intro hx; exact absurd hx (by simp [RunResult.isPublish])
        · intro hx; exact absurd hx h1
      · constructor
        · intro hx; exact absurd hx (by simp)
        · intro hx; exact absurd hx h2

/-- Witness for C1 (amended) at a concrete input that is neither token:
"hello" starts a fresh orchestration run. -/
theorem C1_dispatch_witness :
    runMultiAgent genvNoRepo exComplete "hello" =
      RunResult.orchestrationRun (orchestrateDefault exComplete "hello").1
        (savedHtml (orchestrateDefault exComplete "hello").1) :=
  (C1_dispatch genvNoRepo exComplete "hello").2.2 (by decide) (by decide)

/-- Counterexample to C1 as stated: the input "I have approved this"
contains the token "APPROVED" case-insensitively, yet the gate does not
trigger publishing - the input is routed to a fresh orchestration round,
because the code compares the whole stripped upper-cased input for equality
rather than containment. -/
theorem C1_counterexample :
    strContains (pyUpper "I have approved this") "APPROVED" = true ∧
    (runMultiAgent genvNoRepo exComplete "I have approved this").isPublish = false := by
  exact ⟨by decide, rfl⟩

lemma pushBranches_append (l1 l2 : List Effect) :
    pushBranches (l1 ++ l2) = pushBranches l1 ++ pushBranches l2 := by
  simp [pushBranches]

lemma pushBranches_base (env : GitEnv) : pushBranches (baseEffects env) = [] := by
  unfold baseEffects
  cases hE : pyTruthy env.gitUserEmail <;> cases hN : pyTruthy env.githubUsername <;>
    simp [hE, hN, pushBranches]

/-- C7 (amended): when the publish path reaches the push step and the push
to main fails, the single retry against master happens exactly when the
failed push's stderr mentions "main"; otherwise no retry occurs, and in
either case no push attempt follows beyond the listed ones. -/
theorem C7_retry_condition (env : GitEnv)
    (hhtml : env.htmlExists = true) (hcfg : pyTruthy env.githubRepoUrl = true)
    (hclone : env.cloneResult.returncode = 0) (hcommit : env.commitResult.returncode = 0)
    (hfail : env.pushMain.returncode ≠ 0) :
    pushBranches (approvedFlow env).2 =
      (if strContains env.pushMain.stderr "main" then ["main", "master"] else ["main"]) := by
  unfold approvedFlow
  rw [if_neg (by simp [hhtml]), if_neg (by simp [hcfg]), if_neg (by simp [hclone]),
      if_neg (by simp [hcommit])]
  by_cases hm : strContains env.pushMain.stderr "main" = true
  · rw [if_pos ⟨hfail, hm⟩, if_pos hm]
    by_cases hp : env.pushMaster.returncode = 0
    · rw [if_pos hp]
      rw [pushBranches_append, pushBranches_base]
      rfl
    · rw [if_neg hp]
      rw [pushBranches_append, pushBranches_base]
      rfl
  · have hm' : strContains env.pushMain.stderr "main" = false := by
      revert hm; cases strContains env.pushMain.stderr "main" <;> simp
    rw [if_neg (fun hand => hm hand.2), if_neg hm, if_neg hfail]
    rw [pushBranches_append, pushBranches_base]
    rfl

/-- Witness for C7 (amended) at a concrete environment whose push to main
fails with a refspec error mentioning "main": exactly one retry against
master follows. -/
theorem C7_retry_condition_witness :
    pushBranches (approvedFlow genvPushMainMissing).2 = ["main", "master"] :=
  (C7_retry_condition genvPushMainMissing rfl rfl rfl rfl (by decide)).trans (by decide)

/-- Counterexample to C7 as stated: a push to main failing with
"permission denied" (stderr not mentioning "main") triggers no retry at all -
only the single push to main is attempted - contradicting the claim that
every failed primary push is retried exactly once against master. -/
theorem C7_counterexample :
    genvPushDenied.pushMain.returncode ≠ 0 ∧
    strContains genvPushDenied.pushMain.stderr "main" = false ∧
    pushBranches (approvedFlow genvPushDenied).2 = ["main"] := by
  refine ⟨by decide, by decide, by decide⟩

/-- C8: on an approve decision with the artifact file present locally but no
repository URL configured, the run returns the distinct "not configured"
outcome (a reported outcome, not an error or exception) and performs no side
effect at all - in particular the locally persisted artifact file is left
intact. -/
theorem C8_not_configured (genv : GitEnv) (complete : List ChatMsg → String)
    (hhtml : genv.htmlExists = true) (hcfg : pyTruthy genv.githubRepoUrl = false) :
    runMultiAgent genv complete "APPROVED" =
      RunResult.publishRun PublishOutcome.notConfigured [] := by
  have hA : pyUpper (pyStrip "APPROVED") = "APPROVED" := by decide
  have hflow : approvedFlow genv = (PublishOutcome.notConfigured, []) := by
    unfold approvedFlow
    rw [if_neg (by simp [hhtml]), if_pos hcfg]
  unfold runMultiAgent
  rw [if_pos hA, hflow]

/-- Witness for C8 at a concrete environment with an existing artifact and
no configured repository URL. -/
theorem C8_not_configured_witness :
    runMultiAgent genvNoRepo exComplete "APPROVED" =
      RunResult.publishRun PublishOutcome.notConfigured [] :=
  C8_not_configured genvNoRepo exComplete rfl rfl

/-- C9 (amended): initialization fails exactly when one of the API key,
endpoint or deployment name is absent or empty; the API version is not
validated - when absent it is silently defaulted to "2024-02-01". -/
theorem C9_required_vars (env : AzureEnv) :
    (isOkB (initAgents env) = false ↔
      ¬ (pyTruthy env.apiKey = true ∧ pyTruthy env.endpoint = true ∧
         pyTruthy env.deploymentName = true)) ∧
    (env.apiVersion = none → ∀ c, initAgents env = Except.ok c →
      c.apiVersion = "2024-02-01") := by
  unfold initAgents
  by_cases hall : (pyTruthy env.apiKey && pyTruthy env.endpoint && pyTruthy env.deploymentName) = true
  · rw [if_pos hall]
    simp only [Bool.and_eq_true] at hall
    constructor
    · constructor
      · intro hx; exact absurd hx (by simp [isOkB])
      · intro hx; exact absurd ⟨hall.1.1, hall.1.2, hall.2⟩ hx
    · intro hv c hc
      injection hc with hc
      rw [← hc]
      simp [hv]
  · rw [if_neg hall]
    constructor
    · constructor
      · intro _
        intro hand
        exact hall (by simp [hand.1, hand.2.1, hand.2.2])
      · intro _; rfl
    · intro _ c hc
      exact absurd hc (by simp)

/-- Witness for C9 (amended) at concrete environments: a missing API key
makes initialization fail, and a missing API version is defaulted. -/
theorem C9_required_vars_witness :
    isOkB (initAgents ⟨none, some "e", some "d", some "v"⟩) = false ∧
    initAgents ⟨some "k", some "e", some "d", none⟩ =
      Except.ok ⟨"k", "e", "d", "2024-02-01"⟩ ∧
    (⟨"k", "e", "d", "2024-02-01"⟩ : AzureConfig).apiVersion = "2024-02-01" :=
  ⟨(C9_required_vars ⟨none, some "e", some "d", some "v"⟩).1.mpr (by decide),
   by rfl,
   (C9_required_vars ⟨some "k", some "e", some "d", none⟩).2 rfl
     ⟨"k", "e", "d", "2024-02-01"⟩ (by rfl)⟩

/-- Counterexample to C9 as stated: with the API version absent from the
environment but the other three values present, initialization succeeds and
silently defaults the API version to "2024-02-01" - it does not fail, and
the missing value is defaulted. -/
theorem C9_counterexample :
    initAgents ⟨some "k", some "https://contoso.openai.azure.com/", some "gpt", none⟩ =
      Except.ok ⟨"k", "https://contoso.openai.azure.com", "gpt", "2024-02-01"⟩ := by
  rfl
